import Mathlib

/-!
Shallow embedding of the receipt-validation and access-code pipeline of
bot.py (a chat-bot selling time-limited access codes).  Strings are
modelled as lists of characters; times are modelled in whole minutes
since the proleptic-Gregorian year 1 (the granularity of both timestamp
patterns).  The relational store is modelled as in-memory lists of rows;
a store failure is modelled by a Boolean flag on the query wrapper.
The character classes of the Python regexes are modelled over ASCII
(digits 0-9, whitespace space/tab/newline/CR/VT/FF), which covers every
input appearing in the development.
-/

/-- Character strings, modelled as lists of characters. -/
abbrev Str := List Char

/-- Decides whether the pattern p occurs as a contiguous substring of t,
as the Python expression p in t on str values. -/
def isSubstr (p : Str) : Str → Bool
  | [] => p.isEmpty
  | c :: t => p.isPrefixOf (c :: t) || isSubstr p t

/-- The three tariffs of the TARIFFS and PAYMENT_DETAILS tables
(bot.py lines 52-67): 2 minutes, 1 hour, 2 hours. -/
inductive Tariff
  | twoMinutes
  | oneHour
  | twoHours
deriving DecidableEq, Repr

/-- Price of each tariff in tenge, PAYMENT_DETAILS.tariff_prices
(bot.py lines 56-60). -/
def tariffPrice : Tariff → Nat
  | .twoMinutes => 0
  | .oneHour => 490
  | .twoHours => 790

/-- Duration of each tariff in minutes, TARIFFS (bot.py lines 63-67). -/
def tariffDuration : Tariff → Nat
  | .twoMinutes => 2
  | .oneHour => 60
  | .twoHours => 120

/-- Environment-derived configuration (bot.py lines 44-55):
recipient name checked in receipts, maximum receipt age in minutes,
suspicious-receipt limit, and maximum accepted PDF size in bytes. -/
structure Config where
  recipientName : Str
  maxAgeMinutes : Nat
  suspiciousLimit : Nat
  maxPdfSize : Nat
deriving DecidableEq, Repr

/-- Validation outcomes of validate_receipt, one constructor per
user-visible reason message (bot.py lines 196-237). -/
inductive VReason
  | accepted
  | amountMismatch
  | recipientMismatch
  | timeUnparsable
  | timeTooOld
  | txnMissingInFilename
  | txnNotInText
  | txnAlreadyUsed
deriving DecidableEq, Repr

/-- The literal renderings of the price that the amount rule searches
for, in source order (bot.py lines 191-195). -/
def amountPatterns (price : Nat) : List Str :=
  let ps := Nat.toDigits 10 price
  [ps ++ (",00").toList, ps ++ (".00").toList,
   ps ++ (" KZT").toList, ps ++ ("₸").toList,
   ps ++ (" тг").toList, ps ++ (" тенге").toList]

/-- The amount rule's search: any of the price renderings occurs in the
extracted text (bot.py lines 191-195). -/
def amountFound (price : Nat) (text : Str) : Bool :=
  (amountPatterns price).any (fun p => isSubstr p text)

/-- An ASCII whitespace character, modelling the regex class \s
(bot.py line 205) over ASCII text. -/
def isWsChar (c : Char) : Bool :=
  c = ' ' || c = '\t' || c = '\n' || c.val = 13 || c.val = 11 || c.val = 12

/-- Numeric value of an ASCII digit character. -/
def digitVal (c : Char) : Nat := c.toNat - 48

/-- Two-digit number from two digit characters. -/
def num2 (a b : Char) : Nat := 10 * digitVal a + digitVal b

/-- Four-digit number from four digit characters. -/
def num4 (a b c d : Char) : Nat :=
  1000 * digitVal a + 100 * digitVal b + 10 * digitVal c + digitVal d

/-- A calendar timestamp at minute precision, as captured by either
timestamp pattern of bot.py lines 204-206. -/
structure DT where
  year : Nat
  month : Nat
  day : Nat
  hour : Nat
  minute : Nat
deriving DecidableEq, Repr

/-- Match of the first timestamp regex of bot.py line 205,
DD.MM.YYYY HH:MM with a single whitespace separator, anchored at the
head of the list; returns the captured fields. -/
def matchP1Head : Str → Option DT
  | d1 :: d2 :: '.' :: m1 :: m2 :: '.' :: y1 :: y2 :: y3 :: y4 :: w ::
      h1 :: h2 :: ':' :: n1 :: n2 :: _ =>
    if d1.isDigit && d2.isDigit && m1.isDigit && m2.isDigit &&
       y1.isDigit && y2.isDigit && y3.isDigit && y4.isDigit && isWsChar w &&
       h1.isDigit && h2.isDigit && n1.isDigit && n2.isDigit then
      some ⟨num4 y1 y2 y3 y4, num2 m1 m2, num2 d1 d2, num2 h1 h2, num2 n1 n2⟩
    else
      none
  | _ => none

/-- Match of the second timestamp regex of bot.py line 206,
YYYY-MM-DDTHH:MM, anchored at the head of the list. -/
def matchP2Head : Str → Option DT
  | y1 :: y2 :: y3 :: y4 :: '-' :: m1 :: m2 :: '-' :: d1 :: d2 :: 'T' ::
      h1 :: h2 :: ':' :: n1 :: n2 :: _ =>
    if y1.isDigit && y2.isDigit && y3.isDigit && y4.isDigit &&
       m1.isDigit && m2.isDigit && d1.isDigit && d2.isDigit &&
       h1.isDigit && h2.isDigit && n1.isDigit && n2.isDigit then
      some ⟨num4 y1 y2 y3 y4, num2 m1 m2, num2 d1 d2, num2 h1 h2, num2 n1 n2⟩
    else
      none
  | _ => none

/-- Leftmost match of the first timestamp pattern, as re.search does. -/
def searchP1 : Str → Option DT
  | [] => none
  | c :: t =>
    match matchP1Head (c :: t) with
    | some g => some g
    | none => searchP1 t

/-- Leftmost match of the second timestamp pattern, as re.search does. -/
def searchP2 : Str → Option DT
  | [] => none
  | c :: t =>
    match matchP2Head (c :: t) with
    | some g => some g
    | none => searchP2 t

/-- Gregorian leap-year test. -/
def isLeap (y : Nat) : Bool :=
  y % 4 = 0 && (y % 100 ≠ 0 || y % 400 = 0)

/-- Number of days in a month of a given year. -/
def daysInMonth (y : Nat) : Nat → Nat
  | 2 => if isLeap y then 29 else 28
  | 4 => 30
  | 6 => 30
  | 9 => 30
  | 11 => 30
  | _ => 31

/-- Days in the months of year y strictly before month m. -/
def daysBeforeMonth (y : Nat) : Nat → Nat
  | 0 => 0
  | 1 => 0
  | m + 1 => daysBeforeMonth y m + daysInMonth y m

/-- Calendar validity of a captured timestamp, exactly the cases in
which Python datetime.strptime succeeds on the matched group: month
1-12, day within the month, hour 0-23, minute 0-59, year at least 1
(datetime.MINYEAR).  A regex match outside these ranges raises
ValueError in the source and falls through to the next pattern. -/
def validDT (t : DT) : Bool :=
  decide (1 ≤ t.year) && decide (1 ≤ t.month) && decide (t.month ≤ 12) &&
  decide (1 ≤ t.day) && decide (t.day ≤ daysInMonth t.year t.month) &&
  decide (t.hour ≤ 23) && decide (t.minute ≤ 59)

/-- Minutes elapsed from 0001-01-01 00:00 to the given timestamp in the
proleptic Gregorian calendar; the common scale on which datetime
subtraction is modelled. -/
def toMinutes (t : DT) : Nat :=
  let yPrev := t.year - 1
  let days := 365 * yPrev + yPrev / 4 - yPrev / 100 + yPrev / 400 +
    daysBeforeMonth t.year t.month + (t.day - 1)
  days * 1440 + t.hour * 60 + t.minute

/-- Keeps a pattern match only when it parses as a valid calendar
timestamp, as the try strptime except ValueError continue of
bot.py lines 209-213 does with the single leftmost match. -/
def parseFirst (o : Option DT) : Option DT :=
  match o with
  | some g => if validDT g then some g else none
  | none => none

/-- The timestamp-extraction loop of bot.py lines 203-213: try the two
patterns in order; for each, take the leftmost regex match and attempt
to parse it; the first pattern whose leftmost match parses wins. -/
def findReceiptTime (text : Str) : Option DT :=
  match parseFirst (searchP1 text) with
  | some g => some g
  | none => parseFirst (searchP2 text)

/-- Maximal runs of decimal digits in a string in scan order, as
re.findall applied to one-or-more-digits returns them.  The first
argument accumulates the current run in reverse. -/
def digitRunsAux : Str → Str → List Str
  | [], acc => if acc.isEmpty then [] else [acc.reverse]
  | c :: t, acc =>
    if c.isDigit then
      digitRunsAux t (c :: acc)
    else if acc.isEmpty then
      digitRunsAux t []
    else
      acc.reverse :: digitRunsAux t []

/-- Maximal runs of decimal digits in a string, in scan order. -/
def digitRuns (t : Str) : List Str := digitRunsAux t []

/-- Python max with key len over a nonempty list given as head and
tail: scans left to right and replaces the current maximum only when a
strictly longer element appears, so the first longest element wins. -/
def pyMaxByLen (x : Str) (xs : List Str) : Str :=
  xs.foldl (fun a b => if a.length < b.length then b else a) x

/-- Transaction id derived from a filename (bot.py lines 223-228):
the longest maximal digit run of the filename, first such run on a
length tie; none when the filename holds no digits. -/
def extractTxnId (fn : Str) : Option Str :=
  match digitRuns fn with
  | [] => none
  | x :: xs => some (pyMaxByLen x xs)

/-- A row of the receipt_transactions table: consumed transaction id,
owning user, consumption time. -/
structure TxnRecord where
  receiptId : Str
  userId : Nat
  usedAt : Nat
deriving DecidableEq, Repr

/-- Whether the ledger holds a committed record for the id, the query
of bot.py line 234. -/
def containsTxn (ledger : List TxnRecord) (tid : Str) : Bool :=
  ledger.any (fun r => decide (r.receiptId = tid))

/-- The transaction-id rule, bot.py lines 221-237: derive the id from
the filename, check its presence in the text, then check the ledger. -/
def transactionRule (ledger : List TxnRecord) (filename text : Str) :
    Bool × VReason :=
  match extractTxnId filename with
  | none => (false, .txnMissingInFilename)
  | some tid =>
    if isSubstr tid text = false then (false, .txnNotInText)
    else if containsTxn ledger tid then (false, .txnAlreadyUsed)
    else (true, .accepted)

/-- validate_receipt (bot.py lines 184-237): the ordered rule chain
amount, recipient, timestamp, transaction id, short-circuiting at the
first failure.  The current time now is in minutes on the toMinutes
scale; the ledger stands for the receipt_transactions table. -/
def validateReceipt (cfg : Config) (ledger : List TxnRecord) (now : Nat)
    (filename text : Str) (tariff : Tariff) : Bool × VReason :=
  let price := tariffPrice tariff
  if 0 < price ∧ amountFound price text = false then
    (false, .amountMismatch)
  else if isSubstr cfg.recipientName text = false then
    (false, .recipientMismatch)
  else
    match findReceiptTime text with
    | none => (false, .timeUnparsable)
    | some g =>
      if (cfg.maxAgeMinutes : Int) < (now : Int) - (toMinutes g : Int) then
        (false, .timeTooOld)
      else
        transactionRule ledger filename text

/-- A row of the suspicious_receipts table: user, username, filename,
failure count, sticky block flag.  The schema file is not in the
repository; per the spec the table is unique on the pair of user id and
filename, the count column defaults to 1 on insert, and the block flag
defaults to false. -/
structure SuspRecord where
  userId : Nat
  username : Str
  fileName : Str
  receiptCount : Nat
  isBlocked : Bool
deriving DecidableEq, Repr

/-- Row predicate matching the WHERE clause on user id and filename of
bot.py line 248. -/
def suspKey (uid : Nat) (fn : Str) (r : SuspRecord) : Bool :=
  decide (r.userId = uid ∧ r.fileName = fn)

/-- log_suspicious_receipt (bot.py lines 239-252): upsert that inserts
a fresh row with count 1 or increments the count of the existing
row for the pair of user id and filename, then re-reads and returns the
count (1 when the read finds nothing).  No statement of the source ever
sets the isBlocked column. -/
def logSuspiciousReceipt (susp : List SuspRecord) (uid : Nat)
    (uname fn : Str) : List SuspRecord × Nat :=
  let susp' :=
    if susp.any (suspKey uid fn) then
      susp.map (fun r =>
        if r.userId = uid ∧ r.fileName = fn then
          { r with receiptCount := r.receiptCount + 1 }
        else r)
    else
      susp ++ [⟨uid, uname, fn, 1, false⟩]
  (susp',
    match susp'.find? (suspKey uid fn) with
    | some r => r.receiptCount
    | none => 1)

/-- log_transaction (bot.py lines 254-261): insert of a fresh ledger
record, or on a duplicate transaction id an update of the consumption
timestamp of the existing row (the ON DUPLICATE KEY UPDATE clause sets
only used_at; the stored user id is left as inserted). -/
def logTransaction (ledger : List TxnRecord) (tid : Str) (uid now : Nat) :
    List TxnRecord :=
  if containsTxn ledger tid then
    ledger.map (fun r =>
      if r.receiptId = tid then { r with usedAt := now } else r)
  else
    ledger ++ [⟨tid, uid, now⟩]

/-- execute_db (bot.py lines 134-148): every store error is caught,
logged and converted to the null sentinel; dbFail models whether the
store operation fails, res the row the healthy query would return. -/
def executeDb {α : Type} (dbFail : Bool) (res : Option α) : Option α :=
  if dbFail then none else res

/-- is_user_blocked (bot.py lines 263-270): a user is blocked when some
suspicious_receipts row of that user has the block flag set; the query
goes through executeDb, so a store failure reads as not blocked. -/
def isUserBlocked (dbFail : Bool) (susp : List SuspRecord) (uid : Nat) :
    Bool :=
  (executeDb dbFail
    (susp.find? (fun r => decide (r.userId = uid ∧ r.isBlocked = true)))).isSome

/-- A row of the codes table: code, owning user, session id, duration
in minutes, expiry time on the toMinutes scale. -/
structure CodeRecord where
  code : Str
  userId : Nat
  sessionId : Str
  durationMinutes : Nat
  expiresAt : Nat
deriving DecidableEq, Repr

/-- is_new_user (bot.py lines 272-279): true when the codes table holds
no row for the user. -/
def isNewUser (codes : List CodeRecord) (uid : Nat) : Bool :=
  (codes.find? (fun r => decide (r.userId = uid))).isNone

/-- The row generate_code (bot.py lines 650-663) inserts: expiry is the
insertion time plus the tariff duration; c and sid are the freshly
drawn random code and session id. -/
def issuedRow (uid : Nat) (tariff : Tariff) (now : Nat) (c sid : Str) :
    CodeRecord :=
  ⟨c, uid, sid, tariffDuration tariff, now + tariffDuration tariff⟩

/-- generate_code (bot.py lines 650-663): append the issued row to the
codes table. -/
def generateCode (codes : List CodeRecord) (uid : Nat) (tariff : Tariff)
    (now : Nat) (c sid : Str) : List CodeRecord :=
  codes ++ [issuedRow uid tariff now c sid]

/-- Session status as computed by the query of handle_my_sessions
(bot.py lines 525-539): active exactly when the expiry is strictly
later than now. -/
inductive SessionStatus
  | active
  | expired
deriving DecidableEq, Repr

/-- The CASE WHEN expires_at is later than NOW of bot.py lines 528-531. -/
def sessionStatus (r : CodeRecord) (now : Nat) : SessionStatus :=
  if now < r.expiresAt then .active else .expired

/-- Whether get_tariff_keyboard (bot.py lines 327-338) includes the
free-tariff button: exactly when is_new_user holds. -/
def tariffKeyboardHasFree (codes : List CodeRecord) (uid : Nat) : Bool :=
  isNewUser codes uid

/-- The user_tariffs dictionary as an association list in insertion
order; assignment overwrites in place or appends. -/
def dictSet (l : List (Nat × Tariff)) (k : Nat) (v : Tariff) :
    List (Nat × Tariff) :=
  if l.any (fun p => decide (p.1 = k)) then
    l.map (fun p => if p.1 = k then (k, v) else p)
  else
    l ++ [(k, v)]

/-- The whole mutable state the pipeline touches: the user_tariffs
dictionary and the suspicious_receipts, receipt_transactions, codes and
payments tables. -/
structure BotState where
  tariffSel : List (Nat × Tariff)
  susp : List SuspRecord
  ledger : List TxnRecord
  codes : List CodeRecord
  payments : List (Nat × Nat × Tariff)
deriving DecidableEq, Repr

/-- Lookup of user_tariffs (bot.py line 424). -/
def lookupTariff (st : BotState) (uid : Nat) : Option Tariff :=
  (st.tariffSel.find? (fun p => decide (p.1 = uid))).map Prod.snd

/-- Outcome of the tariff-selection callback. -/
inductive TariffOutcome
  | freeIssued
  | paymentInstructions
deriving DecidableEq, Repr

/-- process_tariff (bot.py lines 385-412): record the selection; for
the free tariff immediately generate a code (no is_new_user check),
otherwise show payment instructions. -/
def processTariff (st : BotState) (uid : Nat) (tariff : Tariff)
    (now : Nat) (c sid : Str) : BotState × TariffOutcome :=
  let st := { st with tariffSel := dictSet st.tariffSel uid tariff }
  if tariff = .twoMinutes then
    ({ st with codes := generateCode st.codes uid tariff now c sid },
     .freeIssued)
  else
    (st, .paymentInstructions)

/-- Outcome of the check-payment command. -/
inductive CheckOutcome
  | noTariffSelected
  | freeIssued
  | receiptNotFound
  | paidIssued
deriving DecidableEq, Repr

/-- cmd_check_payment (bot.py lines 467-509): free tariff issues a code
at once (no is_new_user check); a paid tariff requires a ledger record
of the user consumed within the last hour, then issues, logs the
payment and clears the selection. -/
def cmdCheckPayment (st : BotState) (uid : Nat) (now : Nat) (c sid : Str) :
    BotState × CheckOutcome :=
  match lookupTariff st uid with
  | none => (st, .noTariffSelected)
  | some tariff =>
    if tariff = .twoMinutes then
      ({ st with codes := generateCode st.codes uid tariff now c sid },
       .freeIssued)
    else if st.ledger.any
        (fun r => decide (r.userId = uid ∧ (now : Int) - 60 < (r.usedAt : Int)))
    then
      let amount := tariffPrice tariff
      let st := { st with codes := generateCode st.codes uid tariff now c sid }
      let st :=
        if 0 < amount then
          { st with payments := st.payments ++ [(uid, amount, tariff)] }
        else st
      let st :=
        { st with tariffSel := st.tariffSel.filter (fun p => decide (p.1 ≠ uid)) }
      (st, .paidIssued)
    else
      (st, .receiptNotFound)

/-- The declared metadata of an uploaded document: filename, MIME type,
byte size. -/
structure Document where
  fileName : Str
  mimeType : Str
  fileSize : Nat
deriving DecidableEq, Repr

/-- The MIME type the handler accepts. -/
def pdfMime : Str := ("application/pdf").toList

/-- Outcome of the document-upload handler, one constructor per reply
branch of bot.py lines 414-465. -/
inductive ProofOutcome
  | blockedMsg
  | chooseTariffMsg
  | notPdfMsg
  | tooLargeMsg
  | acceptedMsg
  | blockedWarnMsg (reason : VReason) (count : Nat)
  | rejectedMsg (reason : VReason) (count : Nat)
  | processingError
deriving DecidableEq, Repr

/-- handle_payment_proof (bot.py lines 414-465): block check, tariff
check, MIME check, size check, then text extraction and validation; on
acceptance commit the transaction, on rejection record the suspicious
attempt and warn or block-message according to the count.  The
extracted text is passed in, standing for the external extractor's
output on the uploaded bytes. -/
def handlePaymentProof (cfg : Config) (st : BotState) (uid : Nat)
    (uname : Str) (doc : Document) (text : Str) (now : Nat) :
    BotState × ProofOutcome :=
  if isUserBlocked false st.susp uid then
    (st, .blockedMsg)
  else
    match lookupTariff st uid with
    | none => (st, .chooseTariffMsg)
    | some tariff =>
      if doc.mimeType ≠ pdfMime then
        (st, .notPdfMsg)
      else if cfg.maxPdfSize < doc.fileSize then
        (st, .tooLargeMsg)
      else
        let vr := validateReceipt cfg st.ledger now doc.fileName text tariff
        if vr.1 then
          match extractTxnId doc.fileName with
          | some tid =>
            ({ st with ledger := logTransaction st.ledger tid uid now },
             .acceptedMsg)
          | none => (st, .processingError)
        else
          let res := logSuspiciousReceipt st.susp uid uname doc.fileName
          ({ st with susp := res.1 },
           if cfg.suspiciousLimit ≤ res.2 then
             .blockedWarnMsg vr.2 res.2
           else
             .rejectedMsg vr.2 res.2)

/-- Whether a document-upload outcome is one of the four rejections
that precede text extraction and rule evaluation. -/
def preValidationReject : ProofOutcome → Bool
  | .blockedMsg => true
  | .chooseTariffMsg => true
  | .notPdfMsg => true
  | .tooLargeMsg => true
  | _ => false

/-- Configuration used by the concrete suspicious-receipt scenario:
recipient IVAN, 25-minute age limit, suspicious limit 3, 3MB size cap. -/
def cfgC1 : Config := ⟨("IVAN").toList, 25, 3, 3145728⟩

/-- First uploaded document of the scenario. -/
def docC1a : Document := ⟨("bad1.pdf").toList, pdfMime, 100⟩

/-- Fourth uploaded document of the scenario, with a fresh filename. -/
def docC1b : Document := ⟨("bad2.pdf").toList, pdfMime, 100⟩

/-- Initial state: user 7 has selected the one-hour tariff, all tables
empty. -/
def stC1a : BotState := ⟨[(7, .oneHour)], [], [], [], []⟩

/-- One document-upload step by user 7 with extracted text junk, which
fails the amount rule of the priced tariff. -/
def stepC1 (st : BotState) (doc : Document) : BotState × ProofOutcome :=
  handlePaymentProof cfgC1 st 7 [] doc (("junk").toList) 0

/-- State after the first invalid submission. -/
def stC1b : BotState := (stepC1 stC1a docC1a).1

/-- State after the second invalid submission. -/
def stC1c : BotState := (stepC1 stC1b docC1a).1

/-- State after the third invalid submission. -/
def stC1d : BotState := (stepC1 stC1c docC1a).1

/-- Configuration of the duplicate-transaction scenario. -/
def cfgC2 : Config := ⟨("IVAN").toList, 25, 3, 3145728⟩

/-- Filename of the duplicate-transaction scenario; its only digit run
is 12345. -/
def fnC2 : Str := ("receipt_12345.pdf").toList

/-- Extracted text of the duplicate-transaction scenario: correct
amount, recipient, fresh timestamp, and the transaction id. -/
def textC2 : Str := ("490,00 IVAN 01.01.2024 10:00 id 12345").toList

/-- Current time of the duplicate-transaction scenario: ten minutes
after the receipt timestamp. -/
def nowC2 : Nat := toMinutes ⟨2024, 1, 1, 10, 0⟩ + 10

/-- State with one code row owned by user 5: user 5 is not new. -/
def stC3 : BotState :=
  ⟨[], [], [], [⟨("aa").toList, 5, ("ss").toList, 2, 100⟩], []⟩

/-- Configuration of the timestamp-rule scenario. -/
def cfgC6 : Config := ⟨("X").toList, 25, 3, 100⟩

/-- Text whose leftmost match of the first timestamp pattern is not a
valid calendar date (month 99), and which the second pattern never
matches. -/
def textC6 : Str := ("X 99.99.2024 10:00").toList

/-- Text with a valid timestamp for the timestamp-rule witness. -/
def textC6b : Str := ("X 01.01.2024 10:00").toList

/-- Current time of the timestamp-rule witness: thirty minutes after
the receipt timestamp, beyond the 25-minute limit. -/
def nowC6 : Nat := toMinutes ⟨2024, 1, 1, 10, 0⟩ + 30

/-- Configuration of the early-reject scenario. -/
def cfgC10 : Config := ⟨("IVAN").toList, 25, 3, 1000⟩

/-- Document of the early-reject scenario. -/
def docC10 : Document := ⟨("r1.pdf").toList, pdfMime, 100⟩

/-- State of the early-reject scenario: user 5 has a suspicious record
with the block flag set. -/
def stC10 : BotState := ⟨[], [⟨5, [], ("a.pdf").toList, 3, true⟩], [], [], []⟩

/-- Claim C1: under a suspicious-limit of 3, three invalid submissions
by user 7 with the same filename yield counts 1, 2, 3 and the blocked
warning on the third, yet no statement of the source ever sets the
sticky block flag: the suspicious row still has isBlocked false, the
block query still answers false, and a fourth upload (fresh filename)
is not short-circuited but runs the full validation chain, recording a
fresh suspicious row with count 1.  This refutes the flag-setting and
short-circuit halves of the claim while confirming the counts. -/
theorem suspicious_block_flag_never_set :
    (stepC1 stC1a docC1a).2 = .rejectedMsg .amountMismatch 1 ∧
    (stepC1 stC1b docC1a).2 = .rejectedMsg .amountMismatch 2 ∧
    (stepC1 stC1c docC1a).2 = .blockedWarnMsg .amountMismatch 3 ∧
    stC1d.susp = [⟨7, [], ("bad1.pdf").toList, 3, false⟩] ∧
    isUserBlocked false stC1d.susp 7 = false ∧
    (stepC1 stC1d docC1b).2 = .rejectedMsg .amountMismatch 1 := by
  decide

/-- Claim C8: a store failure is converted to the null sentinel, so the
block query answers false for every user and every table content, even
when a row with the block flag set exists; under a healthy store the
same row makes the query answer true. -/
theorem store_failure_fail_open :
    (∀ (α : Type) (res : Option α), executeDb true res = none) ∧
    (∀ susp uid, isUserBlocked true susp uid = false) ∧
    (∀ susp uid r, r ∈ susp → r.userId = uid → r.isBlocked = true →
      isUserBlocked false susp uid = true) := by
  refine ⟨fun α res => rfl, fun susp uid => rfl, fun susp uid r hr hu hb => ?_⟩
  simp only [isUserBlocked, executeDb, if_neg, Bool.false_eq_true,
    if_false, Option.isSome_iff_exists]
  have : (susp.find? (fun r => decide (r.userId = uid ∧ r.isBlocked = true))).isSome := by
    rw [List.find?_isSome]
    exact ⟨r, hr, by simp [hu, hb]⟩
  simpa [Option.isSome_iff_exists] using this

/-- Witness for claim C8 at a concrete table: a row of user 5 with the
block flag set is reported blocked by the healthy query. -/
theorem store_failure_fail_open_witness :
    isUserBlocked false [⟨5, [], ("a.pdf").toList, 3, true⟩] 5 = true :=
  store_failure_fail_open.2.2 [⟨5, [], ("a.pdf").toList, 3, true⟩] 5
    ⟨5, [], ("a.pdf").toList, 3, true⟩ (by simp) rfl rfl

/-- Claim C9: a code generated at time T with the 120-minute tariff is
the appended row with expiry T plus 120, and the session query reports
it active exactly while now is strictly before T plus 120, expired from
the boundary on. -/
theorem session_active_iff_before_expiry :
    ∀ (codes : List CodeRecord) (uid T now : Nat) (c sid : Str),
      generateCode codes uid .twoHours T c sid =
        codes ++ [issuedRow uid .twoHours T c sid] ∧
      (sessionStatus (issuedRow uid .twoHours T c sid) now = .active ↔
        now < T + 120) ∧
      (sessionStatus (issuedRow uid .twoHours T c sid) now = .expired ↔
        T + 120 ≤ now) := by
  intro codes uid T now c sid
  refine ⟨rfl, ?_, ?_⟩ <;>
    simp only [sessionStatus, issuedRow, tariffDuration] <;>
    split <;> simp_all

/-- Witness for claim C9: a code issued at time 50 is active at time
100 and expired at time 170. -/
theorem session_active_iff_before_expiry_witness :
    sessionStatus (issuedRow 9 .twoHours 50 (("cc").toList) (("s4").toList)) 100 =
      .active ∧
    sessionStatus (issuedRow 9 .twoHours 50 (("cc").toList) (("s4").toList)) 170 =
      .expired :=
  ⟨((session_active_iff_before_expiry [] 9 50 100 (("cc").toList)
      (("s4").toList)).2.1).mpr (by decide),
   ((session_active_iff_before_expiry [] 9 50 170 (("cc").toList)
      (("s4").toList)).2.2).mpr (by decide)⟩

/-- Counterexample to claim C3: user 5 already owns a code row, so
isNewUser is false, yet the tariff-selection handler issues a zero-price
code to user 5 all the same: issuance is not gated by isNewUser. -/
theorem freeTariff_issued_to_returning_user :
    isNewUser stC3.codes 5 = false ∧
    (processTariff stC3 5 .twoMinutes 0 (("bb").toList) (("s2").toList)).2 =
      .freeIssued ∧
    (processTariff stC3 5 .twoMinutes 0 (("bb").toList) (("s2").toList)).1.codes =
      stC3.codes ++ [issuedRow 5 .twoMinutes 0 (("bb").toList) (("s2").toList)] := by
  decide

/-- Amended claim C3: the zero-price tariff is only offered in the
tariff keyboard when the user has no code row, but both issuance paths
(the selection callback and the check-payment command) issue a
zero-price code unconditionally, without re-checking isNewUser. -/
theorem freeTariff_offer_gating :
    (∀ codes uid, tariffKeyboardHasFree codes uid = true ↔
      ∀ r ∈ codes, r.userId ≠ uid) ∧
    (∀ st uid now c sid,
      (processTariff st uid .twoMinutes now c sid).1.codes =
        st.codes ++ [issuedRow uid .twoMinutes now c sid] ∧
      (processTariff st uid .twoMinutes now c sid).2 = .freeIssued) ∧
    (∀ st uid now c sid, lookupTariff st uid = some .twoMinutes →
      (cmdCheckPayment st uid now c sid).1.codes =
        st.codes ++ [issuedRow uid .twoMinutes now c sid] ∧
      (cmdCheckPayment st uid now c sid).2 = .freeIssued) := by
  refine ⟨fun codes uid => ?_, fun st uid now c sid => ?_, fun st uid now c sid h => ?_⟩
  · simp only [tariffKeyboardHasFree, isNewUser, Option.isNone_iff_eq_none,
      List.find?_eq_none, decide_eq_true_eq]
  · exact ⟨rfl, rfl⟩
  · simp [cmdCheckPayment, h, generateCode]

/-- Witness for the amended claim C3: with tariff 2-minutes selected,
the check-payment command appends a zero-price code row. -/
theorem freeTariff_offer_gating_witness :
    (cmdCheckPayment ⟨[(5, Tariff.twoMinutes)], [], [], [], []⟩ 5 0
        (("cc").toList) (("s3").toList)).1.codes =
      ([] : List CodeRecord) ++
        [issuedRow 5 .twoMinutes 0 (("cc").toList) (("s3").toList)] :=
  (freeTariff_offer_gating.2.2 ⟨[(5, Tariff.twoMinutes)], [], [], [], []⟩ 5 0
    (("cc").toList) (("s3").toList) (by decide)).1

/-- Counterexample to claim C7: committing id 123 for user 1 at time 10
and then committing the same id for user 2 at time 20 leaves the record
owned by user 1 with only the timestamp refreshed; the owner
association is not updated, contrary to the claim. -/
theorem ledger_commit_owner_not_updated_cex :
    logTransaction (logTransaction [] (("123").toList) 1 10)
        (("123").toList) 2 20 =
      [⟨("123").toList, 1, 20⟩] := by
  decide

/-- Amended claim C7: commit inserts a new record when none exists for
the id; when one exists it refreshes only the consumption timestamp of
that record, preserving every stored id and owner association. -/
theorem ledger_commit_upsert :
    (∀ L tid uid now, containsTxn L tid = false →
      logTransaction L tid uid now = L ++ [⟨tid, uid, now⟩]) ∧
    (∀ L tid uid now, containsTxn L tid = true →
      (logTransaction L tid uid now).map (fun r => (r.receiptId, r.userId)) =
        L.map (fun r => (r.receiptId, r.userId)) ∧
      ∀ r ∈ logTransaction L tid uid now, r.receiptId = tid →
        r.usedAt = now) := by
  constructor
  · intro L tid uid now h
    simp [logTransaction, h]
  · intro L tid uid now h
    constructor
    · simp only [logTransaction, h, if_true, List.map_map]
      refine List.map_congr_left ?_
      intro a ha
      by_cases hid : a.receiptId = tid <;> simp [hid]
    · intro r hr hid
      simp only [logTransaction, h, if_true, List.mem_map] at hr
      obtain ⟨a, ha, hfa⟩ := hr
      by_cases h2 : a.receiptId = tid
      · rw [if_pos h2] at hfa
        rw [← hfa]
      · rw [if_neg h2] at hfa
        rw [← hfa] at hid
        exact absurd hid h2

/-- Witness for the amended claim C7: re-committing id 123 as user 2
preserves the id and owner columns of the existing record. -/
theorem ledger_commit_upsert_witness :
    (logTransaction [⟨("123").toList, 1, 10⟩] (("123").toList) 2 20).map
        (fun r => (r.receiptId, r.userId)) =
      [(⟨("123").toList, 1, 10⟩ : TxnRecord)].map
        (fun r => (r.receiptId, r.userId)) :=
  (ledger_commit_upsert.2 [⟨("123").toList, 1, 10⟩] (("123").toList) 2 20
    (by decide)).1


/-- Helper: unfolding of the validator when the timestamp loop yields
no parsable time. -/
theorem validateReceipt_time_none (cfg : Config) (L : List TxnRecord)
    (now : Nat) (fn text : Str) (tf : Tariff)
    (hft : findReceiptTime text = none) :
    validateReceipt cfg L now fn text tf =
      if 0 < tariffPrice tf ∧ amountFound (tariffPrice tf) text = false then
        (false, .amountMismatch)
      else if isSubstr cfg.recipientName text = false then
        (false, .recipientMismatch)
      else (false, .timeUnparsable) := by
  rw [validateReceipt, hft]

/-- Helper: unfolding of the validator when the timestamp loop yields a
parsed time g. -/
theorem validateReceipt_time_some (cfg : Config) (L : List TxnRecord)
    (now : Nat) (fn text : Str) (tf : Tariff) (g : DT)
    (hft : findReceiptTime text = some g) :
    validateReceipt cfg L now fn text tf =
      if 0 < tariffPrice tf ∧ amountFound (tariffPrice tf) text = false then
        (false, .amountMismatch)
      else if isSubstr cfg.recipientName text = false then
        (false, .recipientMismatch)
      else if (cfg.maxAgeMinutes : Int) < (now : Int) - (toMinutes g : Int) then
        (false, .timeTooOld)
      else transactionRule L fn text := by
  rw [validateReceipt, hft]

/-- Helper: unfolding of the transaction-id rule when an id has been
extracted from the filename. -/
theorem transactionRule_extract_some (L : List TxnRecord) (fn text tid : Str)
    (h : extractTxnId fn = some tid) :
    transactionRule L fn text =
      if isSubstr tid text = false then (false, .txnNotInText)
      else if containsTxn L tid = true then (false, .txnAlreadyUsed)
      else (true, .accepted) := by
  rw [transactionRule, h]

/-- Claim C4: the rule chain short-circuits in source order; when a
priced tariff's amount is absent the verdict is amount-mismatch
whatever else the text holds, and when the amount token is present but
the recipient string is absent the verdict is recipient-mismatch, never
amount-mismatch; when amount and recipient both pass and the timestamp
parses fresh, the verdict is whatever the transaction-id rule decides. -/
theorem amount_then_recipient_order :
    ∀ cfg ledger now fn text tf,
      (0 < tariffPrice tf → amountFound (tariffPrice tf) text = false →
        validateReceipt cfg ledger now fn text tf = (false, .amountMismatch)) ∧
      (0 < tariffPrice tf → amountFound (tariffPrice tf) text = true →
        isSubstr cfg.recipientName text = false →
        validateReceipt cfg ledger now fn text tf = (false, .recipientMismatch)) ∧
      (∀ g, (0 < tariffPrice tf → amountFound (tariffPrice tf) text = true) →
        isSubstr cfg.recipientName text = true →
        findReceiptTime text = some g →
        ¬ ((cfg.maxAgeMinutes : Int) < (now : Int) - (toMinutes g : Int)) →
        validateReceipt cfg ledger now fn text tf =
          transactionRule ledger fn text) := by
  intro cfg ledger now fn text tf
  refine ⟨fun hp ha => ?_, fun hp ha hr => ?_, fun g ha hr hft hage => ?_⟩
  · rw [validateReceipt, if_pos ⟨hp, ha⟩]
  · rw [validateReceipt, if_neg (by simp [ha]), if_pos hr]
  · have hc1 : ¬ (0 < tariffPrice tf ∧ amountFound (tariffPrice tf) text = false) := by
      rintro ⟨hp, haf⟩
      rw [ha hp] at haf
      cases haf
    rw [validateReceipt_time_some cfg ledger now fn text tf g hft,
      if_neg hc1, if_neg (by simp [hr]), if_neg hage]

/-- Witness for claim C4: a text carrying the correct amount token but
not the configured recipient fails with recipient-mismatch. -/
theorem amount_then_recipient_order_witness :
    validateReceipt ⟨("ZORRO").toList, 25, 3, 100⟩ [] 0 (("f.pdf").toList)
        (("490,00 stuff").toList) .oneHour = (false, .recipientMismatch) :=
  (amount_then_recipient_order ⟨("ZORRO").toList, 25, 3, 100⟩ [] 0
    (("f.pdf").toList) (("490,00 stuff").toList) .oneHour).2.1
    (by decide) (by decide) (by decide)

/-- Helper: unfolding the Python max scan one step. -/
theorem pyMaxByLen_cons (x y : Str) (ys : List Str) :
    pyMaxByLen x (y :: ys) =
      pyMaxByLen (if x.length < y.length then y else x) ys := rfl

/-- Helper: the Python max with key len over a nonempty list is the
first element of maximal length: everything before it in the list is
strictly shorter, and nothing in the list is longer. -/
theorem pyMaxByLen_spec (xs : List Str) (x : Str) :
    ∃ l₁ l₂, x :: xs = l₁ ++ pyMaxByLen x xs :: l₂ ∧
      (∀ r ∈ l₁, r.length < (pyMaxByLen x xs).length) ∧
      (∀ r ∈ x :: xs, r.length ≤ (pyMaxByLen x xs).length) := by
  induction xs generalizing x with
  | nil =>
    refine ⟨[], [], rfl, by simp, ?_⟩
    intro r hr
    simp only [List.mem_singleton] at hr
    simp [hr, pyMaxByLen]
  | cons y ys ih =>
    rw [pyMaxByLen_cons]
    by_cases h : x.length < y.length
    · rw [if_pos h]
      obtain ⟨l₁, l₂, heq, hlt, hle⟩ := ih y
      refine ⟨x :: l₁, l₂, ?_, ?_, ?_⟩
      · rw [List.cons_append, ← heq]
      · intro r hr
        rcases List.mem_cons.mp hr with hrx | hrl
        · rw [hrx]
          exact lt_of_lt_of_le h (hle y (List.mem_cons_self y ys))
        · exact hlt r hrl
      · intro r hr
        rcases List.mem_cons.mp hr with hrx | hrl
        · rw [hrx]
          exact le_of_lt (lt_of_lt_of_le h (hle y (List.mem_cons_self y ys)))
        · exact hle r hrl
    · rw [if_neg h]
      obtain ⟨l₁, l₂, heq, hlt, hle⟩ := ih x
      cases l₁ with
      | nil =>
        simp only [List.nil_append] at heq
        have hx : x = pyMaxByLen x ys := (List.cons.injEq _ _ _ _).mp heq |>.1
        refine ⟨[], y :: ys, ?_, by simp, ?_⟩
        · rw [List.nil_append, ← hx]
        · intro r hr
          rcases List.mem_cons.mp hr with hrx | hrl
          · rw [hrx]
            exact hle x (List.mem_cons_self x ys)
          · rcases List.mem_cons.mp hrl with hry | hrys
            · rw [hry]
              exact le_trans (Nat.le_of_not_lt h)
                (hle x (List.mem_cons_self x ys))
            · exact hle r (List.mem_cons_of_mem x hrys)
      | cons a l₁' =>
        simp only [List.cons_append] at heq
        have hax := (List.cons.injEq _ _ _ _).mp heq
        have hys : ys = l₁' ++ pyMaxByLen x ys :: l₂ := hax.2
        have hxa : a = x := hax.1.symm
        have hxlt : x.length < (pyMaxByLen x ys).length := by
          have hmem := hlt a (List.mem_cons_self a l₁')
          rwa [hxa] at hmem
        refine ⟨x :: y :: l₁', l₂, ?_, ?_, ?_⟩
        · simp only [List.cons_append]
          exact congrArg (fun l => x :: y :: l) hys
        · intro r hr
          rcases List.mem_cons.mp hr with hrx | hrl
          · rw [hrx]
            exact hxlt
          · rcases List.mem_cons.mp hrl with hry | hrl'
            · rw [hry]
              exact lt_of_le_of_lt (Nat.le_of_not_lt h) hxlt
            · exact hlt r (List.mem_cons_of_mem a hrl')
        · intro r hr
          rcases List.mem_cons.mp hr with hrx | hrl
          · rw [hrx]
            exact hle x (List.mem_cons_self x ys)
          · rcases List.mem_cons.mp hrl with hry | hrys
            · rw [hry]
              exact le_trans (Nat.le_of_not_lt h)
                (hle x (List.mem_cons_self x ys))
            · exact hle r (List.mem_cons_of_mem x hrys)

/-- Claim C5: the transaction-id rule works on the filename's maximal
digit runs; with no run it fails with missing-in-filename; the chosen
id is the first run of maximal length (longest wins, scan order breaks
ties); the worked filename yields 98765; and an id absent from the text
fails with not-in-text. -/
theorem transaction_id_rule_spec :
    (∀ L fn text, digitRuns fn = [] →
      transactionRule L fn text = (false, .txnMissingInFilename)) ∧
    (∀ fn tid, extractTxnId fn = some tid →
      ∃ l₁ l₂, digitRuns fn = l₁ ++ tid :: l₂ ∧
        (∀ r ∈ l₁, r.length < tid.length) ∧
        (∀ r ∈ digitRuns fn, r.length ≤ tid.length)) ∧
    extractTxnId (("receipt_12_98765.pdf").toList) =
      some (("98765").toList) ∧
    (∀ L fn text tid, extractTxnId fn = some tid →
      isSubstr tid text = false →
      transactionRule L fn text = (false, .txnNotInText)) := by
  refine ⟨fun L fn text h => ?_, fun fn tid h => ?_, by decide,
    fun L fn text tid h hs => ?_⟩
  · rw [transactionRule, extractTxnId, h]
  · rw [extractTxnId] at h
    rcases hd : digitRuns fn with _ | ⟨x, xs⟩
    · rw [hd] at h
      cases h
    · rw [hd] at h
      have htid : pyMaxByLen x xs = tid := by
        injection h
      obtain ⟨l₁, l₂, heq, hlt, hle⟩ := pyMaxByLen_spec xs x
      rw [htid] at heq hlt hle
      exact ⟨l₁, l₂, heq, hlt, hle⟩
  · rw [transactionRule_extract_some L fn text tid h, if_pos hs]

/-- Witness for claim C5: a digit-free filename makes the rule fail
with missing-in-filename. -/
theorem transaction_id_rule_spec_witness :
    transactionRule [] (("nodigits.pdf").toList) [] =
      (false, .txnMissingInFilename) :=
  transaction_id_rule_spec.1 [] (("nodigits.pdf").toList) [] (by decide)

/-- Helper: after a commit of a transaction id, the ledger contains a
record for that id, whether the commit inserted or refreshed. -/
theorem containsTxn_logTransaction (L : List TxnRecord) (tid : Str)
    (uid now : Nat) :
    containsTxn (logTransaction L tid uid now) tid = true := by
  rw [logTransaction]
  by_cases h : containsTxn L tid = true
  · rw [if_pos h]
    rw [containsTxn, List.any_map]
    rw [containsTxn, List.any_eq_true] at h
    obtain ⟨r, hr, hrid⟩ := h
    rw [List.any_eq_true]
    refine ⟨r, hr, ?_⟩
    rw [decide_eq_true_eq] at hrid
    simp [Function.comp, hrid]
  · rw [if_neg h]
    rw [containsTxn, List.any_append]
    simp

/-- Claim C2: when a receipt carrying transaction id tid is accepted
and committed, a second receipt carrying the same id that passes every
other rule is rejected with transaction-already-used. -/
theorem duplicate_transaction_rejected :
    ∀ cfg L now₁ now₂ fn₁ t₁ tf₁ fn₂ t₂ tf₂ uid tid,
      validateReceipt cfg L now₁ fn₁ t₁ tf₁ = (true, .accepted) →
      extractTxnId fn₁ = some tid →
      validateReceipt cfg L now₂ fn₂ t₂ tf₂ = (true, .accepted) →
      extractTxnId fn₂ = some tid →
      validateReceipt cfg (logTransaction L tid uid now₁) now₂ fn₂ t₂ tf₂ =
        (false, .txnAlreadyUsed) := by
  intro cfg L now₁ now₂ fn₁ t₁ tf₁ fn₂ t₂ tf₂ uid tid _h1 _hx1 h2 hx2
  by_cases hc1 : (0 < tariffPrice tf₂ ∧ amountFound (tariffPrice tf₂) t₂ = false)
  · rw [validateReceipt, if_pos hc1] at h2
    exact absurd h2 (by simp)
  · by_cases hc2 : isSubstr cfg.recipientName t₂ = false
    · rw [validateReceipt, if_neg hc1, if_pos hc2] at h2
      exact absurd h2 (by simp)
    · cases hft : findReceiptTime t₂ with
      | none =>
        rw [validateReceipt_time_none cfg L now₂ fn₂ t₂ tf₂ hft,
          if_neg hc1, if_neg hc2] at h2
        exact absurd h2 (by simp)
      | some g =>
        rw [validateReceipt_time_some cfg L now₂ fn₂ t₂ tf₂ g hft,
          if_neg hc1, if_neg hc2] at h2
        rw [validateReceipt_time_some cfg (logTransaction L tid uid now₁)
          now₂ fn₂ t₂ tf₂ g hft, if_neg hc1, if_neg hc2]
        by_cases hc3 : ((cfg.maxAgeMinutes : Int) < (now₂ : Int) - (toMinutes g : Int))
        · rw [if_pos hc3] at h2
          exact absurd h2 (by simp)
        · rw [if_neg hc3] at h2
          rw [if_neg hc3]
          rw [transactionRule_extract_some L fn₂ t₂ tid hx2] at h2
          rw [transactionRule_extract_some (logTransaction L tid uid now₁)
            fn₂ t₂ tid hx2]
          by_cases hs : isSubstr tid t₂ = false
          · rw [if_pos hs] at h2
            exact absurd h2 (by simp)
          · rw [if_neg hs]
            rw [if_pos (containsTxn_logTransaction L tid uid now₁)]

/-- Witness for claim C2 at a concrete receipt: after committing id
12345, resubmitting the same receipt is rejected as already used. -/
theorem duplicate_transaction_rejected_witness :
    validateReceipt cfgC2 (logTransaction [] (("12345").toList) 7 nowC2)
        nowC2 fnC2 textC2 .oneHour = (false, .txnAlreadyUsed) :=
  duplicate_transaction_rejected cfgC2 [] nowC2 nowC2 fnC2 textC2 .oneHour
    fnC2 textC2 .oneHour 7 (("12345").toList)
    (by decide) (by decide) (by decide) (by decide)

/-- Counterexample to claim C6: in textC6 the first pattern has a match
(99.99.2024 10:00) and the second pattern has none, so by the claim the
timestamp rule should proceed past time-unparsable; but the match does
not parse as a calendar date (month 99), strptime raises, the loop
falls through, and the validator fails with time-unparsable. -/
theorem timestamp_rule_first_match_cex :
    (searchP1 textC6).isSome = true ∧ searchP2 textC6 = none ∧
    validateReceipt cfgC6 [] 0 (("f1.pdf").toList) textC6 .twoMinutes =
      (false, .timeUnparsable) := by
  decide

/-- Helper: the transaction-id rule never yields the too-old reason. -/
theorem transactionRule_ne_tooOld :
    ∀ L fn text, transactionRule L fn text ≠ (false, .timeTooOld) := by
  intro L fn text
  cases hx : extractTxnId fn with
  | none =>
    rw [transactionRule, hx]
    simp
  | some tid =>
    rw [transactionRule_extract_some L fn text tid hx]
    split
    · decide
    · split <;> decide

/-- Helper: with the amount and recipient rules passing and a parsed
receipt time g, the validator rejects with time-too-old exactly when
now minus g strictly exceeds the configured age limit. -/
theorem validate_tooOld_iff (cfg : Config) (L : List TxnRecord) (now : Nat)
    (fn text : Str) (tf : Tariff) (g : DT)
    (ha : 0 < tariffPrice tf → amountFound (tariffPrice tf) text = true)
    (hr : isSubstr cfg.recipientName text = true)
    (hft : findReceiptTime text = some g) :
    validateReceipt cfg L now fn text tf = (false, .timeTooOld) ↔
      (cfg.maxAgeMinutes : Int) < (now : Int) - (toMinutes g : Int) := by
  have hc1 : ¬ (0 < tariffPrice tf ∧ amountFound (tariffPrice tf) text = false) := by
    rintro ⟨hp, haf⟩
    rw [ha hp] at haf
    cases haf
  rw [validateReceipt_time_some cfg L now fn text tf g hft, if_neg hc1,
    if_neg (by simp [hr])]
  constructor
  · intro h
    by_cases hc3 : (cfg.maxAgeMinutes : Int) < (now : Int) - (toMinutes g : Int)
    · exact hc3
    · rw [if_neg hc3] at h
      exact absurd h (transactionRule_ne_tooOld L fn text)
  · intro hc3
    rw [if_pos hc3]

/-- Amended claim C6: the rule tries the two patterns in order, taking
for each only the leftmost regex match; the first pattern whose
leftmost match parses as a calendar-valid datetime wins; when no
pattern yields a parsable leftmost match the rule fails with
time-unparsable (even if some pattern matched syntactically); otherwise
it fails with time-too-old exactly when now minus the parsed time
strictly exceeds the configured limit, so a future-dated receipt is
never rejected for age. -/
theorem timestamp_rule_amended :
    (∀ text g, searchP1 text = some g → validDT g = true →
      findReceiptTime text = some g) ∧
    (∀ cfg L now fn text tf,
      (0 < tariffPrice tf → amountFound (tariffPrice tf) text = true) →
      isSubstr cfg.recipientName text = true →
      findReceiptTime text = none →
      validateReceipt cfg L now fn text tf = (false, .timeUnparsable)) ∧
    (∀ cfg L now fn text tf g,
      (0 < tariffPrice tf → amountFound (tariffPrice tf) text = true) →
      isSubstr cfg.recipientName text = true →
      findReceiptTime text = some g →
      (validateReceipt cfg L now fn text tf = (false, .timeTooOld) ↔
        (cfg.maxAgeMinutes : Int) < (now : Int) - (toMinutes g : Int))) ∧
    (∀ cfg L now fn text tf g,
      (0 < tariffPrice tf → amountFound (tariffPrice tf) text = true) →
      isSubstr cfg.recipientName text = true →
      findReceiptTime text = some g →
      now ≤ toMinutes g →
      validateReceipt cfg L now fn text tf ≠ (false, .timeTooOld)) := by
  refine ⟨fun text g h1 h2 => ?_, fun cfg L now fn text tf ha hr hft => ?_,
    fun cfg L now fn text tf g ha hr hft =>
      validate_tooOld_iff cfg L now fn text tf g ha hr hft,
    fun cfg L now fn text tf g ha hr hft hfut heq => ?_⟩
  · rw [findReceiptTime, h1, parseFirst, if_pos h2]
  · have hc1 : ¬ (0 < tariffPrice tf ∧ amountFound (tariffPrice tf) text = false) := by
      rintro ⟨hp, haf⟩
      rw [ha hp] at haf
      cases haf
    rw [validateReceipt_time_none cfg L now fn text tf hft, if_neg hc1,
      if_neg (by simp [hr])]
  · have h := (validate_tooOld_iff cfg L now fn text tf g ha hr hft).mp heq
    omega

/-- Witness for the amended claim C6: a receipt timestamped thirty
minutes before now, beyond the 25-minute limit, is rejected as too
old. -/
theorem timestamp_rule_amended_witness :
    validateReceipt cfgC6 [] nowC6 (("f1.pdf").toList) textC6b .twoMinutes =
      (false, .timeTooOld) :=
  (timestamp_rule_amended.2.2.1 cfgC6 [] nowC6 (("f1.pdf").toList) textC6b
    .twoMinutes ⟨2024, 1, 1, 10, 0⟩ (fun h => absurd h (by decide))
    (by decide) (by decide)).mpr (by decide)

/-- Claim C10: any of the four pre-validation rejections of the upload
handler (blocked user, no tariff selected, non-PDF MIME type, oversize
file) leaves the whole state unchanged, yields one of the four
pre-validation outcomes, and makes the handler's result independent of
the extracted text, so no validation rule is ever consulted. -/
theorem early_reject_state_unchanged :
    ∀ cfg st uid uname doc text text' now,
      (isUserBlocked false st.susp uid = true ∨ lookupTariff st uid = none ∨
        doc.mimeType ≠ pdfMime ∨ cfg.maxPdfSize < doc.fileSize) →
      (handlePaymentProof cfg st uid uname doc text now).1 = st ∧
      preValidationReject (handlePaymentProof cfg st uid uname doc text now).2 =
        true ∧
      handlePaymentProof cfg st uid uname doc text now =
        handlePaymentProof cfg st uid uname doc text' now := by
  intro cfg st uid uname doc text text' now h
  by_cases hb : isUserBlocked false st.susp uid = true
  · simp [handlePaymentProof, hb, preValidationReject]
  · have hb' : isUserBlocked false st.susp uid = false := by
      cases hq : isUserBlocked false st.susp uid
      · rfl
      · exact absurd hq hb
    rcases h with h | h | h | h
    · exact absurd h hb
    · simp [handlePaymentProof, hb', h, preValidationReject]
    · cases hl : lookupTariff st uid with
      | none => simp [handlePaymentProof, hb', hl, preValidationReject]
      | some tf => simp [handlePaymentProof, hb', hl, h, preValidationReject]
    · cases hl : lookupTariff st uid with
      | none => simp [handlePaymentProof, hb', hl, preValidationReject]
      | some tf =>
        by_cases hm : doc.mimeType ≠ pdfMime
        · simp [handlePaymentProof, hb', hl, hm, preValidationReject]
        · simp [handlePaymentProof, hb', hl, hm, h, preValidationReject]

/-- Witness for claim C10: a blocked user's upload leaves the concrete
state untouched, is rejected before validation, and the result does not
depend on the extracted text. -/
theorem early_reject_state_unchanged_witness :
    (handlePaymentProof cfgC10 stC10 5 [] docC10 [] 0).1 = stC10 ∧
    preValidationReject (handlePaymentProof cfgC10 stC10 5 [] docC10 [] 0).2 =
      true ∧
    handlePaymentProof cfgC10 stC10 5 [] docC10 [] 0 =
      handlePaymentProof cfgC10 stC10 5 [] docC10 (("z").toList) 0 :=
  early_reject_state_unchanged cfgC10 stC10 5 [] docC10 [] (("z").toList) 0
    (Or.inl (by decide))
